import Mathlib

/-!
Shallow embedding of the rate-limiting subsystem of the
fastapi-large-app-template repository, together with theorems settling the
frozen claims about it.

Embedded source files:
- app/utils/rate_limiter.py       (user_rate_limiter, ip_rate_limiter)
- app/observability/metrics.py    (safe counter adds, ratelimit record helpers)
- app/user/user_router.py         (register and login handlers, rate-limit path)
- app/todo/todo_router.py         (create_todo handler, rate-limit path)

Python exceptions are modelled with Except; a function that can raise returns
an Except value whose error constructor distinguishes HTTPException from other
exceptions, mirroring the except-clause dispatch of the handlers.  Machine
integers of the source are modelled as Nat (the store returns a nonnegative
millisecond count per its contract).  The external Redis store behind
FastAPILimiter.redis is abstracted as an optional evalsha function over an
abstract store state.
-/

namespace App

/-- Model of a generic (non-HTTPException) Python exception: only its message
is observable to the embedded code. -/
structure PyExc where
  msg : String
deriving DecidableEq, Repr

/-- Model of fastapi.HTTPException as raised and declared by the embedded
handlers: a status code and a detail string. -/
structure HTTPException where
  status_code : Nat
  detail : String
deriving DecidableEq, Repr

/-- A raised Python exception, split the way the except clauses of the
handlers split it: an HTTPException, or any other exception. -/
inductive PyError where
  | http (e : HTTPException)
  | exc (e : PyExc)
deriving DecidableEq, Repr

/-- Decidable equality of embedded call results, used to evaluate traces on
concrete inputs. -/
instance {ε α : Type} [DecidableEq ε] [DecidableEq α] :
    DecidableEq (Except ε α) := fun a b =>
  match a, b with
  | .ok x, .ok y =>
    if h : x = y then isTrue (by rw [h]) else isFalse (by simp [h])
  | .error x, .error y =>
    if h : x = y then isTrue (by rw [h]) else isFalse (by simp [h])
  | .ok _, .error _ => isFalse (by simp)
  | .error _, .ok _ => isFalse (by simp)

/-- A metric data point that actually reached the metrics sink: instrument
name, added value, and the two labels used by the rate-limiter helpers
(service and env). -/
structure MetricEvent where
  counter : String
  value : Nat
  service : String
  env : String
deriving DecidableEq, Repr

/-- State of one module-level counter instrument of app/observability/metrics.py:
either still None (create_metrics not run), or an active instrument whose add
method either succeeds or raises. -/
inductive CounterState where
  | absent
  | active (throws : Bool)
deriving DecidableEq, Repr

/-- Raw counter.add call of an active instrument: records one data point, or
raises. -/
def counter_raw_add (throws : Bool) (name : String) (value : Nat)
    (service env : String) : Except PyExc (List MetricEvent) :=
  if throws then .error ⟨"metrics sink failure"⟩
  else .ok [⟨name, value, service, env⟩]

/-- Embeds metrics.py _safe_add: inside a try block, if the counter is not
None call counter.add(value, labels); any exception is swallowed by
except-pass.  The Except result type records that the caller sees a raise
only if this function produces an error value. -/
def safe_add (c : CounterState) (name : String) (value : Nat)
    (service env : String) : Except PyExc (List MetricEvent) :=
  match c with
  | .absent => .ok []
  | .active throws =>
    match counter_raw_add throws name value service env with
    | .ok es => .ok es
    | .error _ => .ok []

/-- States of the three module-level rate-limiter counter instruments of
app/observability/metrics.py used by the rate limiter. -/
structure MetricsState where
  ratelimit_allowed : CounterState
  ratelimit_rejected : CounterState
  ratelimit_degraded : CounterState
deriving DecidableEq, Repr

/-- Embeds metrics.py record_ratelimit_decision: labels are
(service, env from get_environment); allowed decisions add to the
allowed counter, rejected ones to the rejected counter, each through
_safe_add. -/
def record_ratelimit_decision (ms : MetricsState) (env : String)
    (allowed : Bool) (service : String) : Except PyExc (List MetricEvent) :=
  if allowed then
    safe_add ms.ratelimit_allowed "app.ratelimiter.allowed_total" 1 service env
  else
    safe_add ms.ratelimit_rejected "app.ratelimiter.rejected_total" 1 service env

/-- Embeds metrics.py record_ratelimit_degraded: adds 1 to the degraded
counter through _safe_add with labels (service, env). -/
def record_ratelimit_degraded (ms : MetricsState) (env : String)
    (service : String) : Except PyExc (List MetricEvent) :=
  safe_add ms.ratelimit_degraded "app.ratelimiter.degraded_total" 1 service env

/-- One invocation of a metrics record helper made by a rate-limiter check:
record_ratelimit_decision(allowed, service) or
record_ratelimit_degraded(service). -/
inductive RecordCall where
  | decision (allowed : Bool) (service : String)
  | degraded (service : String)
deriving DecidableEq, Repr

/-- Model of FastAPILimiter.redis: None, or a connection whose evalsha runs
the rate-limit script against an abstract store state σ with arguments
(key, times, milliseconds), returning the pexpire reply or raising. -/
inductive RedisHandle (σ : Type) where
  | noConn
  | conn (evalsha : σ → String → Nat → Nat → Except PyExc (Nat × σ))

/-- Model of the FastAPILimiter class attributes read by the rate limiter:
the key namespace pfx (source name: FastAPILimiter.prefix) and the redis
handle. -/
structure FastAPILimiterState (σ : Type) where
  pfx : String
  redis : RedisHandle σ

/-- Key built by user_rate_limiter, from the f-string
"{FastAPILimiter.prefix}:user:{user_id}:{service}". -/
def user_key (pfx user_id service : String) : String :=
  pfx ++ ":user:" ++ user_id ++ ":" ++ service

/-- Key built by ip_rate_limiter, from the f-string
"{FastAPILimiter.prefix}:ip:{client_ip}:{service}". -/
def ip_key (pfx client_ip service : String) : String :=
  pfx ++ ":ip:" ++ client_ip ++ ":" ++ service

/-- Observable trace of one rate-limiter check: its outcome (normal return or
raised exception), the metrics record helpers it invoked in order, the metric
data points that reached the sink, the evalsha invocations it made with their
(key, times, milliseconds) arguments, the resulting store state, and the
whole-second wait embedded in a 429 detail (source local expire_seconds;
0 when no rejection was produced). -/
structure CheckTrace (σ : Type) where
  outcome : Except PyError Unit
  calls : List RecordCall
  events : List MetricEvent
  store_calls : List (String × Nat × Nat)
  store : σ
  retry_after : Nat

/-- Python math.ceil(pexpire / 1000) for a nonnegative integer pexpire,
as exact ceiling division on Nat. -/
def ceil_ms_to_sec (pexpire : Nat) : Nat :=
  (pexpire + 999) / 1000

/-- Embeds app/utils/rate_limiter.py user_rate_limiter (source defaults:
times=5, seconds=60).  Control flow of the source: return early when redis is
None; call evalsha on the user key inside a try block; on any exception treat
pexpire as 0, mark the check as not executed and record a degraded event; when
executed and pexpire is nonzero record a rejected decision and raise
HTTPException 429 with the ceil-seconds hint, otherwise record an allowed
decision and return. -/
def user_rate_limiter (ms : MetricsState) (env : String) {σ : Type}
    (L : FastAPILimiterState σ) (st : σ) (user_id service : String)
    (times seconds : Nat) : CheckTrace σ :=
  let milliseconds := seconds * 1000
  let key := user_key L.pfx user_id service
  match L.redis with
  | .noConn =>
    { outcome := .ok (), calls := [], events := [], store_calls := [],
      store := st, retry_after := 0 }
  | .conn evalsha =>
    match evalsha st key times milliseconds with
    | .error _ =>
      match record_ratelimit_degraded ms env service with
      | .ok es =>
        { outcome := .ok (), calls := [.degraded service], events := es,
          store_calls := [(key, times, milliseconds)], store := st,
          retry_after := 0 }
      | .error e =>
        { outcome := .error (.exc e), calls := [.degraded service],
          events := [], store_calls := [(key, times, milliseconds)],
          store := st, retry_after := 0 }
    | .ok (pexpire, st₂) =>
      if pexpire ≠ 0 then
        let expire_seconds := ceil_ms_to_sec pexpire
        match record_ratelimit_decision ms env false service with
        | .ok es =>
          { outcome := .error (.http ⟨429,
              "Rate limit exceeded. Try again in " ++ toString expire_seconds
                ++ " seconds."⟩),
            calls := [.decision false service], events := es,
            store_calls := [(key, times, milliseconds)], store := st₂,
            retry_after := expire_seconds }
        | .error e =>
          { outcome := .error (.exc e), calls := [.decision false service],
            events := [], store_calls := [(key, times, milliseconds)],
            store := st₂, retry_after := 0 }
      else
        match record_ratelimit_decision ms env true service with
        | .ok es =>
          { outcome := .ok (), calls := [.decision true service],
            events := es, store_calls := [(key, times, milliseconds)],
            store := st₂, retry_after := 0 }
        | .error e =>
          { outcome := .error (.exc e), calls := [.decision true service],
            events := [], store_calls := [(key, times, milliseconds)],
            store := st₂, retry_after := 0 }

/-- Model of starlette Request.client: an optional (host, port) pair. -/
structure RequestClient where
  host : String
  port : Nat
deriving DecidableEq, Repr

/-- Model of the starlette Request as read by ip_rate_limiter: only the
client attribute is consulted. -/
structure Request where
  client : Option RequestClient
deriving DecidableEq, Repr

/-- Client ip resolved by ip_rate_limiter from the request. -/
def client_ip_of (request : Request) : String :=
  match request.client with
  | some c => c.host
  | none => "unknown"

/-- Embeds app/utils/rate_limiter.py ip_rate_limiter (source defaults:
times=5, seconds=60).  Identical control flow to user_rate_limiter except the
identity is request.client.host with fallback "unknown" and the key kind
segment is "ip". -/
def ip_rate_limiter (ms : MetricsState) (env : String) {σ : Type}
    (L : FastAPILimiterState σ) (st : σ) (request : Request) (service : String)
    (times seconds : Nat) : CheckTrace σ :=
  let milliseconds := seconds * 1000
  let client_ip := match request.client with
    | some c => c.host
    | none => "unknown"
  let key := ip_key L.pfx client_ip service
  match L.redis with
  | .noConn =>
    { outcome := .ok (), calls := [], events := [], store_calls := [],
      store := st, retry_after := 0 }
  | .conn evalsha =>
    match evalsha st key times milliseconds with
    | .error _ =>
      match record_ratelimit_degraded ms env service with
      | .ok es =>
        { outcome := .ok (), calls := [.degraded service], events := es,
          store_calls := [(key, times, milliseconds)], store := st,
          retry_after := 0 }
      | .error e =>
        { outcome := .error (.exc e), calls := [.degraded service],
          events := [], store_calls := [(key, times, milliseconds)],
          store := st, retry_after := 0 }
    | .ok (pexpire, st₂) =>
      if pexpire ≠ 0 then
        let expire_seconds := ceil_ms_to_sec pexpire
        match record_ratelimit_decision ms env false service with
        | .ok es =>
          { outcome := .error (.http ⟨429,
              "Rate limit exceeded. Try again in " ++ toString expire_seconds
                ++ " seconds."⟩),
            calls := [.decision false service], events := es,
            store_calls := [(key, times, milliseconds)], store := st₂,
            retry_after := expire_seconds }
        | .error e =>
          { outcome := .error (.exc e), calls := [.decision false service],
            events := [], store_calls := [(key, times, milliseconds)],
            store := st₂, retry_after := 0 }
      else
        match record_ratelimit_decision ms env true service with
        | .ok es =>
          { outcome := .ok (), calls := [.decision true service],
            events := es, store_calls := [(key, times, milliseconds)],
            store := st₂, retry_after := 0 }
        | .error e =>
          { outcome := .error (.exc e), calls := [.decision true service],
            events := [], store_calls := [(key, times, milliseconds)],
            store := st₂, retry_after := 0 }

/-- Success payload of a handler as far as the embedding observes it: the
status and message fields of the returned dict (the data payload is opaque
to the rate-limiting claims). -/
structure ApiResponse where
  status : String
  message : String
deriving DecidableEq, Repr

/-- Embeds app/user/user_router.py register: inside the try block run the ip
rate limiter, then register_user (whose outcome is passed in as an Except
value; None means duplicate username/email and raises HTTPException 400).
The except clauses re-raise HTTPException unchanged and convert every other
exception to HTTPException 500. -/
def register {α : Type} (rl : Except PyError Unit)
    (register_user : Except PyError (Option α)) : Except PyError ApiResponse :=
  let body : Except PyError ApiResponse :=
    match rl with
    | .error e => .error e
    | .ok _ =>
      match register_user with
      | .error e => .error e
      | .ok none => .error (.http ⟨400, "Username or email already exists"⟩)
      | .ok (some _) => .ok ⟨"success", "User registered successfully"⟩
  match body with
  | .ok r => .ok r
  | .error (.http e) => .error (.http e)
  | .error (.exc _) => .error (.http ⟨500, "Error registering user"⟩)

/-- Embeds app/user/user_router.py login: inside the try block run the ip
rate limiter, then login_user (None means bad credentials and raises
HTTPException 401).  The single except clause catches Exception — which in
Python includes HTTPException — so every raise inside the try block, the
rate-limit 429 included, is converted to HTTPException 500. -/
def login {α : Type} (rl : Except PyError Unit)
    (login_user : Except PyError (Option α)) : Except PyError ApiResponse :=
  let body : Except PyError ApiResponse :=
    match rl with
    | .error e => .error e
    | .ok _ =>
      match login_user with
      | .error e => .error e
      | .ok none => .error (.http ⟨401, "Invalid credentials"⟩)
      | .ok (some _) => .ok ⟨"success", "Login successful"⟩
  match body with
  | .ok r => .ok r
  | .error _ => .error (.http ⟨500, "Error logging in user"⟩)

/-- Embeds app/todo/todo_router.py create_todo: inside the try block run the
user rate limiter, then create_todo_service.  The except clauses re-raise
HTTPException unchanged and convert every other exception to
HTTPException 500. -/
def create_todo {α : Type} (rl : Except PyError Unit)
    (create_todo_service : Except PyError α) : Except PyError ApiResponse :=
  let body : Except PyError ApiResponse :=
    match rl with
    | .error e => .error e
    | .ok _ =>
      match create_todo_service with
      | .error e => .error e
      | .ok _ => .ok ⟨"success", "Todo created successfully"⟩
  match body with
  | .ok r => .ok r
  | .error (.http e) => .error (.http e)
  | .error (.exc _) => .error (.http ⟨500, "Error creating todo"⟩)

/-- Counter value currently stored under a key in the spec-modelled counting
store; a missing key counts as 0. -/
def getCount : List (String × Nat) → String → Nat
  | [], _ => 0
  | (k, c) :: rest, key => if k = key then c else getCount rest key

/-- Store with the counter under the given key replaced (or inserted). -/
def setCount : List (String × Nat) → String → Nat → List (String × Nat)
  | [], key, c => [(key, c)]
  | (k, c₀) :: rest, key, c =>
    if k = key then (key, c) :: rest else (k, c₀) :: setCount rest key c

/-- Modelled from the spec: the external counting store collaborator
atomic_increment_with_expiry(key, limit, window_ms), which is not part of
this repository (it is the fastapi_limiter Lua script run by evalsha).  Per
the spec it atomically increments the counter at the key, sets the expiry on
the first increment of a window, and returns 0 when the counter has not
exceeded the limit, else the positive number of milliseconds remaining in
the window.  Within the single window modelled here the remaining
milliseconds are represented by the full window_ms, which is positive
whenever the window is. -/
def atomic_increment_with_expiry (st : List (String × Nat)) (key : String)
    (limit : Nat) (window_ms : Nat) : Nat × List (String × Nat) :=
  let c := getCount st key + 1
  (if limit < c then window_ms else 0, setCount st key c)

/-- Evalsha interface of the spec-modelled counting store. -/
def spec_evalsha :
    List (String × Nat) → String → Nat → Nat →
      Except PyExc (Nat × List (String × Nat)) :=
  fun st key times ms => .ok (atomic_increment_with_expiry st key times ms)

/-- Store state reached after n successive user_rate_limiter checks for one
(user_id, service) pair against the spec-modelled store, starting empty. -/
def store_after (ms : MetricsState) (env pfx user_id service : String)
    (times seconds : Nat) : Nat → List (String × Nat)
  | 0 => []
  | n + 1 =>
    (user_rate_limiter ms env ⟨pfx, .conn spec_evalsha⟩
      (store_after ms env pfx user_id service times seconds n)
      user_id service times seconds).store

/-- Data points delivered by a metrics record helper that is known not to
raise. -/
def recorded (r : Except PyExc (List MetricEvent)) : List MetricEvent :=
  match r with
  | .ok es => es
  | .error _ => []

/-- Metrics state in which all three rate-limiter counters are initialized
and their add calls succeed. -/
def live_metrics : MetricsState :=
  ⟨.active false, .active false, .active false⟩

/-- Store double whose evalsha always raises (Redis down). -/
def always_raise_evalsha : Unit → String → Nat → Nat → Except PyExc (Nat × Unit) :=
  fun _ _ _ _ => .error ⟨"Redis down"⟩

/-- Store double whose evalsha always returns a fixed pexpire reply. -/
def const_reply_evalsha (p : Nat) :
    Unit → String → Nat → Nat → Except PyExc (Nat × Unit) :=
  fun st _ _ _ => .ok (p, st)

/-- Store double whose evalsha reply depends on the key: it admits on one
specific key and rejects on every other key. -/
def key_sensitive_evalsha :
    Unit → String → Nat → Nat → Except PyExc (Nat × Unit) :=
  fun st key _ _ =>
    if key = "p:user:u1:todo" then .ok (0, st) else .ok (30000, st)

/-- _safe_add never raises: whatever the counter state, it returns normally. -/
theorem safe_add_ok (c : CounterState) (name : String) (value : Nat)
    (service env : String) :
    ∃ es, safe_add c name value service env = .ok es := by
  cases c with
  | absent => exact ⟨[], rfl⟩
  | active throws =>
    cases throws
    · exact ⟨[⟨name, value, service, env⟩], rfl⟩
    · exact ⟨[], rfl⟩

/-- record_ratelimit_decision never raises. -/
theorem record_ratelimit_decision_ok (ms : MetricsState) (env : String)
    (allowed : Bool) (service : String) :
    ∃ es, record_ratelimit_decision ms env allowed service = .ok es := by
  unfold record_ratelimit_decision
  cases allowed <;> simp <;> exact safe_add_ok ..

/-- record_ratelimit_degraded never raises. -/
theorem record_ratelimit_degraded_ok (ms : MetricsState) (env : String)
    (service : String) :
    ∃ es, record_ratelimit_degraded ms env service = .ok es := by
  unfold record_ratelimit_degraded
  exact safe_add_ok ..

/-- Full trace of a user check whose evalsha call returns a reply. -/
theorem user_trace_of_reply (ms : MetricsState) (env : String) {σ : Type}
    (pfx : String) (f : σ → String → Nat → Nat → Except PyExc (Nat × σ))
    (st : σ) (user_id service : String) (times seconds : Nat)
    (p : Nat) (st₂ : σ)
    (h : f st (user_key pfx user_id service) times (seconds * 1000) =
      .ok (p, st₂)) :
    user_rate_limiter ms env ⟨pfx, .conn f⟩ st user_id service times seconds =
      if p = 0 then
        { outcome := .ok (), calls := [.decision true service],
          events := recorded (record_ratelimit_decision ms env true service),
          store_calls := [(user_key pfx user_id service, times, seconds * 1000)],
          store := st₂, retry_after := 0 }
      else
        { outcome := .error (.http ⟨429,
            "Rate limit exceeded. Try again in "
              ++ toString (ceil_ms_to_sec p) ++ " seconds."⟩),
          calls := [.decision false service],
          events := recorded (record_ratelimit_decision ms env false service),
          store_calls := [(user_key pfx user_id service, times, seconds * 1000)],
          store := st₂, retry_after := ceil_ms_to_sec p } := by
  unfold user_rate_limiter
  simp only [h]
  by_cases hp : p = 0
  · obtain ⟨es, hes⟩ := record_ratelimit_decision_ok ms env true service
    simp [hp, hes, recorded]
  · obtain ⟨es, hes⟩ := record_ratelimit_decision_ok ms env false service
    simp [hp, hes, recorded]

/-- Full trace of a user check whose evalsha call raises. -/
theorem user_trace_of_raise (ms : MetricsState) (env : String) {σ : Type}
    (pfx : String) (f : σ → String → Nat → Nat → Except PyExc (Nat × σ))
    (st : σ) (user_id service : String) (times seconds : Nat) (e : PyExc)
    (h : f st (user_key pfx user_id service) times (seconds * 1000) =
      .error e) :
    user_rate_limiter ms env ⟨pfx, .conn f⟩ st user_id service times seconds =
      { outcome := .ok (), calls := [.degraded service],
        events := recorded (record_ratelimit_degraded ms env service),
        store_calls := [(user_key pfx user_id service, times, seconds * 1000)],
        store := st, retry_after := 0 } := by
  unfold user_rate_limiter
  simp only [h]
  obtain ⟨es, hes⟩ := record_ratelimit_degraded_ok ms env service
  simp [hes, recorded]

/-- Full trace of an ip check whose evalsha call returns a reply. -/
theorem ip_trace_of_reply (ms : MetricsState) (env : String) {σ : Type}
    (pfx : String) (f : σ → String → Nat → Nat → Except PyExc (Nat × σ))
    (st : σ) (request : Request) (service : String) (times seconds : Nat)
    (p : Nat) (st₂ : σ)
    (h : f st (ip_key pfx (client_ip_of request) service) times
      (seconds * 1000) = .ok (p, st₂)) :
    ip_rate_limiter ms env ⟨pfx, .conn f⟩ st request service times seconds =
      if p = 0 then
        { outcome := .ok (), calls := [.decision true service],
          events := recorded (record_ratelimit_decision ms env true service),
          store_calls :=
            [(ip_key pfx (client_ip_of request) service, times, seconds * 1000)],
          store := st₂, retry_after := 0 }
      else
        { outcome := .error (.http ⟨429,
            "Rate limit exceeded. Try again in "
              ++ toString (ceil_ms_to_sec p) ++ " seconds."⟩),
          calls := [.decision false service],
          events := recorded (record_ratelimit_decision ms env false service),
          store_calls :=
            [(ip_key pfx (client_ip_of request) service, times, seconds * 1000)],
          store := st₂, retry_after := ceil_ms_to_sec p } := by
  unfold ip_rate_limiter
  unfold client_ip_of at h
  simp only [h]
  by_cases hp : p = 0
  · obtain ⟨es, hes⟩ := record_ratelimit_decision_ok ms env true service
    simp [hp, hes, recorded, client_ip_of]
  · obtain ⟨es, hes⟩ := record_ratelimit_decision_ok ms env false service
    simp [hp, hes, recorded, client_ip_of]

/-- Full trace of an ip check whose evalsha call raises. -/
theorem ip_trace_of_raise (ms : MetricsState) (env : String) {σ : Type}
    (pfx : String) (f : σ → String → Nat → Nat → Except PyExc (Nat × σ))
    (st : σ) (request : Request) (service : String) (times seconds : Nat)
    (e : PyExc)
    (h : f st (ip_key pfx (client_ip_of request) service) times
      (seconds * 1000) = .error e) :
    ip_rate_limiter ms env ⟨pfx, .conn f⟩ st request service times seconds =
      { outcome := .ok (), calls := [.degraded service],
        events := recorded (record_ratelimit_degraded ms env service),
        store_calls :=
          [(ip_key pfx (client_ip_of request) service, times, seconds * 1000)],
        store := st, retry_after := 0 } := by
  unfold ip_rate_limiter
  unfold client_ip_of at h
  simp only [h]
  obtain ⟨es, hes⟩ := record_ratelimit_degraded_ok ms env service
  simp [hes, recorded, client_ip_of]

/-- Whole-second rounding of the millisecond TTL agrees with the exact
rational ceiling. -/
theorem ceil_ms_to_sec_eq (v : Nat) : ceil_ms_to_sec v = ⌈(v : ℚ) / 1000⌉₊ := by
  rcases Nat.eq_zero_or_pos v with hv | hv
  · subst hv
    simp [ceil_ms_to_sec]
  · have hq : ceil_ms_to_sec v ≠ 0 := by unfold ceil_ms_to_sec; omega
    symm
    rw [Nat.ceil_eq_iff hq]
    constructor
    · have h2 : (ceil_ms_to_sec v - 1) * 1000 < v := by
        unfold ceil_ms_to_sec at *; omega
      rw [lt_div_iff₀ (by norm_num : (0 : ℚ) < 1000)]
      exact_mod_cast h2
    · have h3 : v ≤ ceil_ms_to_sec v * 1000 := by
        unfold ceil_ms_to_sec; omega
      rw [div_le_iff₀ (by norm_num : (0 : ℚ) < 1000)]
      exact_mod_cast h3

/-- Strings with equal character data are equal. -/
theorem data_eq {s t : String} (h : s.data = t.data) : s = t := by
  cases s; cases t; exact congrArg String.mk h

/-- A colon-terminated prefix free of colons determines a unique split of a
character list. -/
theorem colon_split (a : List Char) :
    ∀ (b x y : List Char), ':' ∉ a → ':' ∉ b →
      a ++ ':' :: x = b ++ ':' :: y → a = b ∧ x = y := by
  induction a with
  | nil =>
    intro b x y _ hb h
    cases b with
    | nil => simpa using h
    | cons c bs =>
      simp only [List.nil_append, List.cons_append, List.cons.injEq] at h
      rw [← h.1] at hb
      exact absurd (List.mem_cons_self ':' bs) hb
  | cons c as ih =>
    intro b x y ha hb h
    cases b with
    | nil =>
      simp only [List.nil_append, List.cons_append, List.cons.injEq] at h
      rw [h.1] at ha
      exact absurd (List.mem_cons_self ':' as) ha
    | cons c₂ bs =>
      simp only [List.cons_append, List.cons.injEq] at h
      obtain ⟨hc, hrest⟩ := h
      have := ih bs x y (fun hm => ha (List.mem_cons_of_mem _ hm))
        (fun hm => hb (List.mem_cons_of_mem _ hm)) hrest
      exact ⟨by simp [hc, this.1], this.2⟩

/-- Character data of a user key. -/
theorem user_key_data (pfx i s : String) :
    (user_key pfx i s).data =
      pfx.data ++ ':' :: 'u' :: 's' :: 'e' :: 'r' :: ':' ::
        (i.data ++ ':' :: s.data) := by
  simp [user_key, String.data_append]

/-- Character data of an ip key. -/
theorem ip_key_data (pfx i s : String) :
    (ip_key pfx i s).data =
      pfx.data ++ ':' :: 'i' :: 'p' :: ':' :: (i.data ++ ':' :: s.data) := by
  simp [ip_key, String.data_append]

/-- Reading back the counter just written to the spec-modelled store. -/
theorem getCount_setCount (st : List (String × Nat)) (key : String) (c : Nat) :
    getCount (setCount st key c) key = c := by
  induction st with
  | nil => simp [setCount, getCount]
  | cons hd rest ih =>
    obtain ⟨k₀, c₀⟩ := hd
    by_cases hk : k₀ = key
    · simp [setCount, hk, getCount]
    · simp [setCount, hk, getCount, ih]

/-- Store state left by one user check against the spec-modelled store: the
counter under the checked key is incremented. -/
theorem user_spec_store (ms : MetricsState) (env pfx user_id service : String)
    (times seconds : Nat) (st : List (String × Nat)) :
    (user_rate_limiter ms env ⟨pfx, .conn spec_evalsha⟩ st user_id service
        times seconds).store =
      setCount st (user_key pfx user_id service)
        (getCount st (user_key pfx user_id service) + 1) := by
  rw [user_trace_of_reply ms env pfx spec_evalsha st user_id service times
    seconds
    (atomic_increment_with_expiry st (user_key pfx user_id service) times
      (seconds * 1000)).1
    (atomic_increment_with_expiry st (user_key pfx user_id service) times
      (seconds * 1000)).2
    rfl]
  split <;> simp [atomic_increment_with_expiry]

/-- Outcome of one user check against the spec-modelled store, for a positive
window: rejected with the 429 exception exactly when the incremented counter
exceeds the limit. -/
theorem user_spec_outcome (ms : MetricsState) (env pfx user_id service : String)
    (times seconds : Nat) (hsec : 0 < seconds) (st : List (String × Nat)) :
    (user_rate_limiter ms env ⟨pfx, .conn spec_evalsha⟩ st user_id service
        times seconds).outcome =
      if times < getCount st (user_key pfx user_id service) + 1 then
        .error (.http ⟨429, "Rate limit exceeded. Try again in "
          ++ toString (ceil_ms_to_sec (seconds * 1000)) ++ " seconds."⟩)
      else .ok () := by
  rw [user_trace_of_reply ms env pfx spec_evalsha st user_id service times
    seconds
    (atomic_increment_with_expiry st (user_key pfx user_id service) times
      (seconds * 1000)).1
    (atomic_increment_with_expiry st (user_key pfx user_id service) times
      (seconds * 1000)).2
    rfl]
  by_cases hc : times < getCount st (user_key pfx user_id service) + 1
  · have h1 : (atomic_increment_with_expiry st (user_key pfx user_id service)
        times (seconds * 1000)).1 = seconds * 1000 := by
      simp [atomic_increment_with_expiry, hc]
    have hne : ¬ (atomic_increment_with_expiry st (user_key pfx user_id service)
        times (seconds * 1000)).1 = 0 := by
      rw [h1]; omega
    rw [if_neg hne]
    simp [h1, hc]
  · have h0 : (atomic_increment_with_expiry st (user_key pfx user_id service)
        times (seconds * 1000)).1 = 0 := by
      simp [atomic_increment_with_expiry, hc]
    rw [if_pos h0]
    simp [hc]

/-- The counter under the checked key after n spec-modelled checks equals n. -/
theorem store_after_count (ms : MetricsState) (env pfx user_id service : String)
    (times seconds : Nat) (n : Nat) :
    getCount (store_after ms env pfx user_id service times seconds n)
      (user_key pfx user_id service) = n := by
  induction n with
  | zero => rfl
  | succ n ih =>
    show getCount (user_rate_limiter ms env ⟨pfx, .conn spec_evalsha⟩
      (store_after ms env pfx user_id service times seconds n)
      user_id service times seconds).store (user_key pfx user_id service) = n + 1
    rw [user_spec_store, getCount_setCount, ih]

/-- C6: for every input, when no counting store connection is configured
(FastAPILimiter.redis is None), both checks return with the request allowed,
make no store call, record no metric event, and raise nothing. -/
theorem C6_no_store_short_circuit (ms : MetricsState) (env : String)
    {σ : Type} (pfx : String) (st : σ) (user_id service : String)
    (request : Request) (times seconds : Nat) :
    user_rate_limiter ms env ⟨pfx, .noConn⟩ st user_id service times seconds =
      { outcome := .ok (), calls := [], events := [], store_calls := [],
        store := st, retry_after := 0 } ∧
    ip_rate_limiter ms env ⟨pfx, .noConn⟩ st request service times seconds =
      { outcome := .ok (), calls := [], events := [], store_calls := [],
        store := st, retry_after := 0 } :=
  ⟨rfl, rfl⟩

/-- C2: for every input, if the atomic store call raises, the check
propagates no exception (it returns with the request allowed) and its only
metrics record invocation is one degraded event tagged with the service
name — no allowed or rejected decision is recorded for the call. -/
theorem C2_fail_open_records_degraded (ms : MetricsState) (env : String)
    {σ : Type} (pfx : String)
    (f : σ → String → Nat → Nat → Except PyExc (Nat × σ)) (st : σ)
    (user_id service : String) (times seconds : Nat) (e : PyExc)
    (h : f st (user_key pfx user_id service) times (seconds * 1000) =
      .error e) :
    (user_rate_limiter ms env ⟨pfx, .conn f⟩ st user_id service times
      seconds).outcome = .ok () ∧
    (user_rate_limiter ms env ⟨pfx, .conn f⟩ st user_id service times
      seconds).calls = [.degraded service] := by
  rw [user_trace_of_raise ms env pfx f st user_id service times seconds e h]
  exact ⟨rfl, rfl⟩

/-- Witness for C2 at a store double whose evalsha always raises. -/
theorem C2_fail_open_records_degraded_witness :
    always_raise_evalsha () (user_key "ratelimit" "u1" "todo") 5 (60 * 1000) =
      .error ⟨"Redis down"⟩ ∧
    ((user_rate_limiter live_metrics "dev" ⟨"ratelimit",
        .conn always_raise_evalsha⟩ () "u1" "todo" 5 60).outcome = .ok () ∧
      (user_rate_limiter live_metrics "dev" ⟨"ratelimit",
        .conn always_raise_evalsha⟩ () "u1" "todo" 5 60).calls =
        [.degraded "todo"]) :=
  ⟨rfl, C2_fail_open_records_degraded live_metrics "dev" "ratelimit"
    always_raise_evalsha () "u1" "todo" 5 60 ⟨"Redis down"⟩ rfl⟩

/-- C8: key construction is deterministic: the key is exactly the string
prefix, kind, identity and service joined by colons, with kind "user" for
authenticated checks and "ip" for anonymous checks, and each check passes
exactly that key (a pure function of prefix, identity and service, hence
identical across repeated checks) to the store. -/
theorem C8_key_shape (ms : MetricsState) (env : String) {σ : Type}
    (pfx identity service host : String)
    (f : σ → String → Nat → Nat → Except PyExc (Nat × σ)) (st : σ)
    (port times seconds : Nat) :
    user_key pfx identity service =
      pfx ++ ":" ++ "user" ++ ":" ++ identity ++ ":" ++ service ∧
    ip_key pfx identity service =
      pfx ++ ":" ++ "ip" ++ ":" ++ identity ++ ":" ++ service ∧
    (user_rate_limiter ms env ⟨pfx, .conn f⟩ st identity service times
      seconds).store_calls =
      [(user_key pfx identity service, times, seconds * 1000)] ∧
    (ip_rate_limiter ms env ⟨pfx, .conn f⟩ st ⟨some ⟨host, port⟩⟩ service
      times seconds).store_calls =
      [(ip_key pfx host service, times, seconds * 1000)] := by
  refine ⟨?_, ?_, ?_, ?_⟩
  · have hu : (":" : String) ++ "user" ++ ":" = ":user:" := rfl
    simp only [user_key]
    rw [← hu]
    simp [String.append_assoc]
  · have hi : (":" : String) ++ "ip" ++ ":" = ":ip:" := rfl
    simp only [ip_key]
    rw [← hi]
    simp [String.append_assoc]
  · cases hf : f st (user_key pfx identity service) times (seconds * 1000) with
    | error e =>
      rw [user_trace_of_raise ms env pfx f st identity service times seconds
        e hf]
    | ok v =>
      obtain ⟨p, st₂⟩ := v
      rw [user_trace_of_reply ms env pfx f st identity service times seconds
        p st₂ hf]
      split <;> rfl
  · cases hf : f st (ip_key pfx host service) times (seconds * 1000) with
    | error e =>
      rw [ip_trace_of_raise ms env pfx f st ⟨some ⟨host, port⟩⟩ service times
        seconds e hf]
      rfl
    | ok v =>
      obtain ⟨p, st₂⟩ := v
      rw [ip_trace_of_reply ms env pfx f st ⟨some ⟨host, port⟩⟩ service times
        seconds p st₂ hf]
      split <;> rfl

/-- C9: a request whose client is unresolved behaves exactly like one whose
resolved host is the literal "unknown" (so all such clients share one bucket
per service), and the check never raises: its outcome is either a normal
return or the 429 rejection. -/
theorem C9_unknown_client (ms : MetricsState) (env : String) {σ : Type}
    (L : FastAPILimiterState σ) (st : σ) (service : String)
    (port times seconds : Nat) :
    ip_rate_limiter ms env L st ⟨none⟩ service times seconds =
      ip_rate_limiter ms env L st ⟨some ⟨"unknown", port⟩⟩ service times
        seconds ∧
    ((ip_rate_limiter ms env L st ⟨none⟩ service times seconds).outcome =
        .ok () ∨
      ∃ d, (ip_rate_limiter ms env L st ⟨none⟩ service times seconds).outcome =
        .error (.http ⟨429, d⟩)) := by
  obtain ⟨pfx, redis⟩ := L
  constructor
  · rfl
  · cases redis with
    | noConn => exact Or.inl rfl
    | conn f =>
      cases hf : f st (ip_key pfx "unknown" service) times (seconds * 1000) with
      | error e =>
        rw [ip_trace_of_raise ms env pfx f st ⟨none⟩ service times seconds
          e hf]
        exact Or.inl rfl
      | ok v =>
        obtain ⟨p, st₂⟩ := v
        rw [ip_trace_of_reply ms env pfx f st ⟨none⟩ service times seconds
          p st₂ hf]
        by_cases hp : p = 0
        · exact Or.inl (by simp [hp])
        · refine Or.inr ⟨"Rate limit exceeded. Try again in "
            ++ toString (ceil_ms_to_sec p) ++ " seconds.", ?_⟩
          simp [hp]

/-- C7: the metrics-recording path never raises to its caller — both record
helpers return normally for every counter state — and the allow/reject
outcome of either check is unchanged by the states of the metrics
instruments. -/
theorem C7_metrics_failures_swallowed :
    (∀ (ms : MetricsState) (env : String) (allowed : Bool) (service : String),
      ∃ es, record_ratelimit_decision ms env allowed service = .ok es) ∧
    (∀ (ms : MetricsState) (env service : String),
      ∃ es, record_ratelimit_degraded ms env service = .ok es) ∧
    (∀ (σ : Type) (ms ms₂ : MetricsState) (env env₂ : String)
      (L : FastAPILimiterState σ) (st : σ) (user_id service : String)
      (request : Request) (times seconds : Nat),
      (user_rate_limiter ms env L st user_id service times seconds).outcome =
        (user_rate_limiter ms₂ env₂ L st user_id service times
          seconds).outcome ∧
      (ip_rate_limiter ms env L st request service times seconds).outcome =
        (ip_rate_limiter ms₂ env₂ L st request service times
          seconds).outcome) := by
  refine ⟨record_ratelimit_decision_ok, record_ratelimit_degraded_ok, ?_⟩
  intro σ ms ms₂ env env₂ L st user_id service request times seconds
  obtain ⟨pfx, redis⟩ := L
  cases redis with
  | noConn => exact ⟨rfl, rfl⟩
  | conn f =>
    constructor
    · cases hf : f st (user_key pfx user_id service) times (seconds * 1000) with
      | error e =>
        rw [user_trace_of_raise ms env pfx f st user_id service times seconds
            e hf,
          user_trace_of_raise ms₂ env₂ pfx f st user_id service times seconds
            e hf]
      | ok v =>
        obtain ⟨p, st₂⟩ := v
        rw [user_trace_of_reply ms env pfx f st user_id service times seconds
            p st₂ hf,
          user_trace_of_reply ms₂ env₂ pfx f st user_id service times seconds
            p st₂ hf]
        split <;> rfl
    · cases hf : f st (ip_key pfx (client_ip_of request) service) times
        (seconds * 1000) with
      | error e =>
        rw [ip_trace_of_raise ms env pfx f st request service times seconds
            e hf,
          ip_trace_of_raise ms₂ env₂ pfx f st request service times seconds
            e hf]
      | ok v =>
        obtain ⟨p, st₂⟩ := v
        rw [ip_trace_of_reply ms env pfx f st request service times seconds
            p st₂ hf,
          ip_trace_of_reply ms₂ env₂ pfx f st request service times seconds
            p st₂ hf]
        split <;> rfl

/-- C5: when the store replies with a positive pexpire v, the rejection wait
is the exact ceiling of v milliseconds in whole seconds, it is positive, and
when additionally v is at most the window in milliseconds it is at most the
window in seconds; when the store replies 0 the check allows the request and
produces no wait. -/
theorem C5_retry_after_ceiling (ms : MetricsState) (env : String) {σ : Type}
    (pfx : String) (f : σ → String → Nat → Nat → Except PyExc (Nat × σ))
    (st st₂ : σ) (user_id service : String) (times seconds v : Nat)
    (h : f st (user_key pfx user_id service) times (seconds * 1000) =
      .ok (v, st₂)) :
    (0 < v →
      (user_rate_limiter ms env ⟨pfx, .conn f⟩ st user_id service times
        seconds).retry_after = ⌈(v : ℚ) / 1000⌉₊ ∧
      0 < (user_rate_limiter ms env ⟨pfx, .conn f⟩ st user_id service times
        seconds).retry_after ∧
      (v ≤ seconds * 1000 →
        (user_rate_limiter ms env ⟨pfx, .conn f⟩ st user_id service times
          seconds).retry_after ≤ seconds)) ∧
    (v = 0 →
      (user_rate_limiter ms env ⟨pfx, .conn f⟩ st user_id service times
        seconds).retry_after = 0 ∧
      (user_rate_limiter ms env ⟨pfx, .conn f⟩ st user_id service times
        seconds).outcome = .ok ()) := by
  rw [user_trace_of_reply ms env pfx f st user_id service times seconds
    v st₂ h]
  constructor
  · intro hv
    have hv0 : ¬ v = 0 := by omega
    rw [if_neg hv0]
    refine ⟨ceil_ms_to_sec_eq v, ?_, ?_⟩
    · show 0 < ceil_ms_to_sec v
      unfold ceil_ms_to_sec
      omega
    · intro hle
      show ceil_ms_to_sec v ≤ seconds
      unfold ceil_ms_to_sec
      omega
  · intro hv0
    rw [if_pos hv0]
    exact ⟨rfl, rfl⟩

/-- Witness for C5 at the concrete configuration times=5, seconds=60 and a
store reply of 30000 milliseconds. -/
theorem C5_retry_after_ceiling_witness :
    const_reply_evalsha 30000 () (user_key "ratelimit" "u1" "todo") 5
      (60 * 1000) = .ok (30000, ()) ∧
    ((0 < 30000 →
      (user_rate_limiter live_metrics "dev" ⟨"ratelimit",
        .conn (const_reply_evalsha 30000)⟩ () "u1" "todo" 5 60).retry_after =
        ⌈(30000 : ℚ) / 1000⌉₊ ∧
      0 < (user_rate_limiter live_metrics "dev" ⟨"ratelimit",
        .conn (const_reply_evalsha 30000)⟩ () "u1" "todo" 5 60).retry_after ∧
      (30000 ≤ 60 * 1000 →
        (user_rate_limiter live_metrics "dev" ⟨"ratelimit",
          .conn (const_reply_evalsha 30000)⟩ () "u1" "todo" 5
          60).retry_after ≤ 60)) ∧
    (30000 = 0 →
      (user_rate_limiter live_metrics "dev" ⟨"ratelimit",
        .conn (const_reply_evalsha 30000)⟩ () "u1" "todo" 5 60).retry_after =
        0 ∧
      (user_rate_limiter live_metrics "dev" ⟨"ratelimit",
        .conn (const_reply_evalsha 30000)⟩ () "u1" "todo" 5 60).outcome =
        .ok ())) :=
  ⟨rfl, C5_retry_after_ceiling live_metrics "dev" "ratelimit"
    (const_reply_evalsha 30000) () () "u1" "todo" 5 60 30000 rfl⟩

/-- C1: against the spec-modelled counting store (which meets the atomic
contract: reply 0 for each of the first `times` increments of the key within
the window, a positive remaining-milliseconds value afterwards), the first
`times` checks for one (identity, service) return without rejection and the
following check raises the 429 rejection. -/
theorem C1_limit_enforced (ms : MetricsState) (env pfx user_id service : String)
    (times seconds : Nat) (hsec : 0 < seconds) :
    (∀ i, i < times →
      (user_rate_limiter ms env ⟨pfx, .conn spec_evalsha⟩
        (store_after ms env pfx user_id service times seconds i)
        user_id service times seconds).outcome = .ok ()) ∧
    ∃ d, (user_rate_limiter ms env ⟨pfx, .conn spec_evalsha⟩
        (store_after ms env pfx user_id service times seconds times)
        user_id service times seconds).outcome = .error (.http ⟨429, d⟩) := by
  constructor
  · intro i hi
    rw [user_spec_outcome ms env pfx user_id service times seconds hsec]
    rw [store_after_count]
    rw [if_neg (by omega)]
  · refine ⟨"Rate limit exceeded. Try again in "
      ++ toString (ceil_ms_to_sec (seconds * 1000)) ++ " seconds.", ?_⟩
    rw [user_spec_outcome ms env pfx user_id service times seconds hsec]
    rw [store_after_count]
    rw [if_pos (by omega)]

/-- Witness for C1 at times=2, seconds=60 and one concrete identity and
service. -/
theorem C1_limit_enforced_witness :
    0 < 60 ∧
    ((∀ i, i < 2 →
      (user_rate_limiter live_metrics "dev" ⟨"ratelimit", .conn spec_evalsha⟩
        (store_after live_metrics "dev" "ratelimit" "u1" "todo" 2 60 i)
        "u1" "todo" 2 60).outcome = .ok ()) ∧
    ∃ d, (user_rate_limiter live_metrics "dev" ⟨"ratelimit",
        .conn spec_evalsha⟩
        (store_after live_metrics "dev" "ratelimit" "u1" "todo" 2 60 2)
        "u1" "todo" 2 60).outcome = .error (.http ⟨429, d⟩)) :=
  ⟨by decide, C1_limit_enforced live_metrics "dev" "ratelimit" "u1" "todo"
    2 60 (by decide)⟩

/-- C3 counterexample: two checks with distinct (identity, service) pairs can
build the same key when the identity contains the colon separator, so key
construction as implemented is not injective over all string inputs. -/
theorem C3_counterexample_colliding_keys :
    (("a:b", "c") : String × String) ≠ ("a", "b:c") ∧
    user_key "p" "a:b" "c" = user_key "p" "a" "b:c" :=
  ⟨by decide, rfl⟩

/-- C3 (amended): key construction is injective over
(identity-kind, identity, service) provided the identity contains no colon:
with colon-free identities, distinct (identity, service) pairs give distinct
keys within each kind, and the two kinds never collide for any identities and
services. -/
theorem C3_key_injectivity (pfx i₁ s₁ i₂ s₂ : String)
    (h₁ : ':' ∉ i₁.data) (h₂ : ':' ∉ i₂.data) :
    (¬ (i₁ = i₂ ∧ s₁ = s₂) → user_key pfx i₁ s₁ ≠ user_key pfx i₂ s₂) ∧
    (¬ (i₁ = i₂ ∧ s₁ = s₂) → ip_key pfx i₁ s₁ ≠ ip_key pfx i₂ s₂) ∧
    user_key pfx i₁ s₁ ≠ ip_key pfx i₂ s₂ := by
  refine ⟨?_, ?_, ?_⟩
  · intro hne he
    have hd := congrArg String.data he
    rw [user_key_data, user_key_data] at hd
    have hd2 := List.append_cancel_left hd
    simp only [List.cons.injEq, true_and] at hd2
    obtain ⟨hi, hs⟩ := colon_split i₁.data i₂.data s₁.data s₂.data h₁ h₂ hd2
    exact hne ⟨data_eq hi, data_eq hs⟩
  · intro hne he
    have hd := congrArg String.data he
    rw [ip_key_data, ip_key_data] at hd
    have hd2 := List.append_cancel_left hd
    simp only [List.cons.injEq, true_and] at hd2
    obtain ⟨hi, hs⟩ := colon_split i₁.data i₂.data s₁.data s₂.data h₁ h₂ hd2
    exact hne ⟨data_eq hi, data_eq hs⟩
  · intro he
    have hd := congrArg String.data he
    rw [user_key_data, ip_key_data] at hd
    have hd2 := List.append_cancel_left hd
    simp at hd2

/-- Witness for C3 (amended) at two concrete colon-free identities sharing a
service. -/
theorem C3_key_injectivity_witness :
    (':' ∉ ("u1" : String).data ∧ ':' ∉ ("u2" : String).data) ∧
    ((¬ (("u1" : String) = "u2" ∧ ("todo" : String) = "todo") →
        user_key "r" "u1" "todo" ≠ user_key "r" "u2" "todo") ∧
      (¬ (("u1" : String) = "u2" ∧ ("todo" : String) = "todo") →
        ip_key "r" "u1" "todo" ≠ ip_key "r" "u2" "todo") ∧
      user_key "r" "u1" "todo" ≠ ip_key "r" "u2" "todo") :=
  ⟨⟨by decide, by decide⟩,
    C3_key_injectivity "r" "u1" "todo" "u2" "todo" (by decide) (by decide)⟩

/-- C4: when the rate limiter produces the over-limit 429, register and
create_todo surface it unchanged, but login converts it to the generic 500 —
its lone except clause catches HTTPException together with every other
Exception — contradicting the claim for the login handler. -/
theorem C4_login_swallows_429 :
    login
      ((ip_rate_limiter live_metrics "dev" ⟨"ratelimit",
        .conn (const_reply_evalsha 30000)⟩ () ⟨some ⟨"1.2.3.4", 80⟩⟩
        "auth:login" 10 60).outcome)
      (.ok (some "u1") : Except PyError (Option String)) =
      .error (.http ⟨500, "Error logging in user"⟩) ∧
    register
      ((ip_rate_limiter live_metrics "dev" ⟨"ratelimit",
        .conn (const_reply_evalsha 30000)⟩ () ⟨some ⟨"1.2.3.4", 80⟩⟩
        "auth:register" 10 60).outcome)
      (.ok (some "u1") : Except PyError (Option String)) =
      .error (.http ⟨429, "Rate limit exceeded. Try again in 30 seconds."⟩) ∧
    create_todo
      ((user_rate_limiter live_metrics "dev" ⟨"ratelimit",
        .conn (const_reply_evalsha 30000)⟩ () "u1" "todo" 10 60).outcome)
      (.ok "todo-data" : Except PyError String) =
      .error (.http ⟨429, "Rate limit exceeded. Try again in 30 seconds."⟩) :=
  ⟨rfl, rfl, rfl⟩

/-- C10 counterexample: with a store whose reply depends on the key, the two
limiters given the same identity string produce different outcomes, because
their keys differ. -/
theorem C10_counterexample_key_sensitive_store :
    (user_rate_limiter live_metrics "dev" ⟨"p", .conn key_sensitive_evalsha⟩
      () "u1" "todo" 5 60).outcome ≠
    (ip_rate_limiter live_metrics "dev" ⟨"p", .conn key_sensitive_evalsha⟩
      () ⟨some ⟨"u1", 1⟩⟩ "todo" 5 60).outcome := by
  decide

/-- C10 (amended): provided the store replies identically to the user key and
the ip key of the same identity and service, user_rate_limiter and
ip_rate_limiter produce the same outcome, the same retry-after seconds, the
same record invocations, the same sink events and the same final store; the
store calls they make differ only in the key, whose kind segment is "user"
versus "ip". -/
theorem C10_user_ip_agree (ms : MetricsState) (env : String) {σ : Type}
    (pfx : String) (f : σ → String → Nat → Nat → Except PyExc (Nat × σ))
    (st : σ) (identity service : String) (port times seconds : Nat)
    (h : f st (user_key pfx identity service) times (seconds * 1000) =
      f st (ip_key pfx identity service) times (seconds * 1000)) :
    (user_rate_limiter ms env ⟨pfx, .conn f⟩ st identity service times
      seconds).outcome =
      (ip_rate_limiter ms env ⟨pfx, .conn f⟩ st ⟨some ⟨identity, port⟩⟩
        service times seconds).outcome ∧
    (user_rate_limiter ms env ⟨pfx, .conn f⟩ st identity service times
      seconds).retry_after =
      (ip_rate_limiter ms env ⟨pfx, .conn f⟩ st ⟨some ⟨identity, port⟩⟩
        service times seconds).retry_after ∧
    (user_rate_limiter ms env ⟨pfx, .conn f⟩ st identity service times
      seconds).calls =
      (ip_rate_limiter ms env ⟨pfx, .conn f⟩ st ⟨some ⟨identity, port⟩⟩
        service times seconds).calls ∧
    (user_rate_limiter ms env ⟨pfx, .conn f⟩ st identity service times
      seconds).events =
      (ip_rate_limiter ms env ⟨pfx, .conn f⟩ st ⟨some ⟨identity, port⟩⟩
        service times seconds).events ∧
    (user_rate_limiter ms env ⟨pfx, .conn f⟩ st identity service times
      seconds).store =
      (ip_rate_limiter ms env ⟨pfx, .conn f⟩ st ⟨some ⟨identity, port⟩⟩
        service times seconds).store ∧
    (user_rate_limiter ms env ⟨pfx, .conn f⟩ st identity service times
      seconds).store_calls =
      [(user_key pfx identity service, times, seconds * 1000)] ∧
    (ip_rate_limiter ms env ⟨pfx, .conn f⟩ st ⟨some ⟨identity, port⟩⟩ service
      times seconds).store_calls =
      [(ip_key pfx identity service, times, seconds * 1000)] := by
  cases hf : f st (user_key pfx identity service) times (seconds * 1000) with
  | error e =>
    have hf2 : f st (ip_key pfx identity service) times (seconds * 1000) =
        .error e := h.symm.trans hf
    rw [user_trace_of_raise ms env pfx f st identity service times seconds
        e hf,
      ip_trace_of_raise ms env pfx f st ⟨some ⟨identity, port⟩⟩ service times
        seconds e hf2]
    exact ⟨rfl, rfl, rfl, rfl, rfl, rfl, rfl⟩
  | ok v =>
    obtain ⟨p, st₂⟩ := v
    have hf2 : f st (ip_key pfx identity service) times (seconds * 1000) =
        .ok (p, st₂) := h.symm.trans hf
    rw [user_trace_of_reply ms env pfx f st identity service times seconds
        p st₂ hf,
      ip_trace_of_reply ms env pfx f st ⟨some ⟨identity, port⟩⟩ service times
        seconds p st₂ hf2]
    by_cases hp : p = 0
    · rw [if_pos hp, if_pos hp]
      exact ⟨rfl, rfl, rfl, rfl, rfl, rfl, rfl⟩
    · rw [if_neg hp, if_neg hp]
      exact ⟨rfl, rfl, rfl, rfl, rfl, rfl, rfl⟩

/-- Witness for C10 (amended) at a key-independent store double. -/
theorem C10_user_ip_agree_witness :
    const_reply_evalsha 0 () (user_key "p" "u1" "todo") 5 (60 * 1000) =
      const_reply_evalsha 0 () (ip_key "p" "u1" "todo") 5 (60 * 1000) ∧
    ((user_rate_limiter live_metrics "dev" ⟨"p",
        .conn (const_reply_evalsha 0)⟩ () "u1" "todo" 5 60).outcome =
      (ip_rate_limiter live_metrics "dev" ⟨"p", .conn (const_reply_evalsha 0)⟩
        () ⟨some ⟨"u1", 1⟩⟩ "todo" 5 60).outcome ∧
    (user_rate_limiter live_metrics "dev" ⟨"p", .conn (const_reply_evalsha 0)⟩
        () "u1" "todo" 5 60).retry_after =
      (ip_rate_limiter live_metrics "dev" ⟨"p", .conn (const_reply_evalsha 0)⟩
        () ⟨some ⟨"u1", 1⟩⟩ "todo" 5 60).retry_after ∧
    (user_rate_limiter live_metrics "dev" ⟨"p", .conn (const_reply_evalsha 0)⟩
        () "u1" "todo" 5 60).calls =
      (ip_rate_limiter live_metrics "dev" ⟨"p", .conn (const_reply_evalsha 0)⟩
        () ⟨some ⟨"u1", 1⟩⟩ "todo" 5 60).calls ∧
    (user_rate_limiter live_metrics "dev" ⟨"p", .conn (const_reply_evalsha 0)⟩
        () "u1" "todo" 5 60).events =
      (ip_rate_limiter live_metrics "dev" ⟨"p", .conn (const_reply_evalsha 0)⟩
        () ⟨some ⟨"u1", 1⟩⟩ "todo" 5 60).events ∧
    (user_rate_limiter live_metrics "dev" ⟨"p", .conn (const_reply_evalsha 0)⟩
        () "u1" "todo" 5 60).store =
      (ip_rate_limiter live_metrics "dev" ⟨"p", .conn (const_reply_evalsha 0)⟩
        () ⟨some ⟨"u1", 1⟩⟩ "todo" 5 60).store ∧
    (user_rate_limiter live_metrics "dev" ⟨"p", .conn (const_reply_evalsha 0)⟩
        () "u1" "todo" 5 60).store_calls =
      [(user_key "p" "u1" "todo", 5, 60 * 1000)] ∧
    (ip_rate_limiter live_metrics "dev" ⟨"p", .conn (const_reply_evalsha 0)⟩
        () ⟨some ⟨"u1", 1⟩⟩ "todo" 5 60).store_calls =
      [(ip_key "p" "u1" "todo", 5, 60 * 1000)]) :=
  ⟨rfl, C10_user_ip_agree live_metrics "dev" "p" (const_reply_evalsha 0) ()
    "u1" "todo" 1 5 60 rfl⟩

end App
